import Mathlib

/-!
Verification development for the uber-rides-trigger repository.

This file gives a shallow embedding of the call-correlation and
state-reconciliation engine of the repository:
the HappyRobot callback endpoint (`src/app/api/calls/callback/route.ts`),
the call-creation step of the trigger endpoint
(`src/app/api/calls/trigger/route.ts`) and the loose-boolean normalizer of
the CSV import endpoint (`src/app/api/riders/import/route.ts`),
together with theorems settling the frozen claims about them.

Modelling conventions:
* JavaScript timestamps (`new Date()`) are modelled as `Nat` instants;
  ISO strings in metadata are modelled as `toString` of that instant.
* Database-generated ids (`gen_random_uuid()`) are passed in explicitly as a
  `freshId : String` argument.
* JavaScript values at the payload paths the code probes are modelled by
  `JsVal`; `JsVal.int` covers integer-valued JS numbers (the only numbers the
  extraction code accepts; `Number.isInteger` fails on every other number, so
  non-integer numbers behave like `JsVal.objVal` for `asInt`/`asString`).
* The Prisma store is modelled as explicit lists of rows; unique indexes
  (`riders.external_id`, `rider_calls.run_id`, primary keys) are database
  invariants, so `List.find?` faithfully models `findUnique` on stores
  satisfying them.
* Rider columns never read or written by the callback path other than as an
  opaque metadata snapshot (sign-up date, flow type, documents, license
  country, residency status) are omitted from the `Rider` row model.
-/

/-- Call lifecycle states, from the `CallStatus` Prisma enum. -/
inductive CallStatus where
  | PENDING
  | RUNNING
  | COMPLETED
  | FAILED
  | CANCELED
deriving DecidableEq, Repr, BEq

/-- Contact outcome states, from the `ContactStatus` Prisma enum. -/
inductive ContactStatus where
  | PENDING
  | NO_ANSWER
  | VOICEMAIL
  | COMPLETED
deriving DecidableEq, Repr, BEq

/-- A JavaScript value as seen at one of the payload paths the callback
endpoint probes.  `undef` is `undefined` (a missing path), `objVal` stands
for any object value (for which every scalar coercion in the route returns
`null`). -/
inductive JsVal where
  | undef
  | jsNull
  | boolVal (b : Bool)
  | int (n : Int)
  | str (s : String)
  | objVal
deriving DecidableEq, Repr

/-- ASCII whitespace as trimmed by JS `String.prototype.trim` (the payloads
in scope contain only ASCII, so the Unicode cases are irrelevant). -/
def jsWhitespace (c : Char) : Bool :=
  c == ' ' || c == '\t' || c == '\n' || c == '\r' || c == '\x0b' || c == '\x0c'

/-- JS `s.trim()`: strip leading and trailing whitespace. -/
def jsTrim (s : String) : String :=
  String.mk (((s.data.dropWhile jsWhitespace).reverse.dropWhile jsWhitespace).reverse)

/-- Lowercase one ASCII character, as JS `toLowerCase` does on ASCII. -/
def jsLowerChar (c : Char) : Char :=
  if 65 ≤ c.toNat && c.toNat ≤ 90 then Char.ofNat (c.toNat + 32) else c

/-- JS `s.toLowerCase()` restricted to ASCII input. -/
def jsToLower (s : String) : String :=
  String.mk (s.data.map jsLowerChar)

/-- Parse a non-empty all-digit string (the `/^\d+$/` check followed by
`Number(...)` in `asInt`, exact on the integer range in scope). -/
def jsParseDigits : String → Option Nat
  | s =>
    if !s.data.isEmpty && s.data.all Char.isDigit then
      some (s.data.foldl (fun n c => 10 * n + (c.toNat - 48)) 0)
    else none

/-- Embeds `normalizeStatus` from `callback/route.ts`: lowercases (without
trimming) and recognizes the spellings of the five call statuses. -/
def normalizeStatus : JsVal → Option CallStatus
  | JsVal.str s =>
    let t := jsToLower s
    if t = "pending" then some CallStatus.PENDING
    else if t = "running" then some CallStatus.RUNNING
    else if t = "completed" || t = "success" then some CallStatus.COMPLETED
    else if t = "failed" || t = "error" then some CallStatus.FAILED
    else if t = "canceled" || t = "cancelled" then some CallStatus.CANCELED
    else none
  | _ => none

/-- Embeds `normalizeContactStatus` from `callback/route.ts`: trims and
lowercases, then recognizes the contact-outcome spellings. -/
def normalizeContactStatus : JsVal → Option ContactStatus
  | JsVal.str s =>
    let t := jsToLower (jsTrim s)
    if t = "pending" then some ContactStatus.PENDING
    else if t = "completed" || t = "success" then some ContactStatus.COMPLETED
    else if t = "voicemail" then some ContactStatus.VOICEMAIL
    else if t = "no_answer" || t = "no answer" then some ContactStatus.NO_ANSWER
    else none
  | _ => none

/-- Embeds `asString` from `callback/route.ts`: a string whose trim is
non-empty is returned unchanged, anything else is `null`. -/
def asString : JsVal → Option String
  | JsVal.str s => if jsTrim s != "" then some s else none
  | _ => none

/-- Embeds `asInt` from `callback/route.ts`: integer numbers pass through;
strings pass when their trim is non-empty and all digits (`String.toNat?`
succeeds exactly on those). -/
def asInt : JsVal → Option Int
  | JsVal.int n => some n
  | JsVal.str s => (jsParseDigits (jsTrim s)).map Int.ofNat
  | _ => none

/-- Embeds `asBoolean` from `callback/route.ts`: booleans pass through,
numbers map to `n ≠ 0`, strings are trimmed/lowercased and matched against
the two four-element lists, everything else is `null`. -/
def asBoolean : JsVal → Option Bool
  | JsVal.boolVal b => some b
  | JsVal.int n => some (n != 0)
  | JsVal.str s =>
    let t := jsToLower (jsTrim s)
    if ["true", "yes", "y", "1"].contains t then some true
    else if ["false", "no", "n", "0"].contains t then some false
    else none
  | _ => none

/-- Embeds `parseBooleanLoose` from `riders/import/route.ts` (the CSV
bulk-import path).  The argument models the `string | undefined | null`
input; `String(v || "")` maps `undefined`/`null`/`""` to `""`. -/
def parseBooleanLoose (v : Option String) : Option Bool :=
  let s := jsToLower (jsTrim (v.getD ""))
  if s = "" || s = "-" then none
  else if ["true", "yes", "y", "1"].contains s then some true
  else if ["false", "no", "n", "0"].contains s then some false
  else if s = "t" then some true
  else if s = "f" then some false
  else none

/-- Modelled from the spec: the loose-boolean mapping of §4.5 — a value in
{true,yes,y,1,t} (case-insensitively, after trimming) maps to true, a value
in {false,no,n,0,f} maps to false, and anything else is absent.  Used only
to compare the two implementations against the spec's words. -/
def specLooseBool (s : String) : Option Bool :=
  let t := jsToLower (jsTrim s)
  if ["true", "yes", "y", "1", "t"].contains t then some true
  else if ["false", "no", "n", "0", "f"].contains t then some false
  else none

/-- JS truthiness of a `string | null` value: `null` and `""` are falsy. -/
def jsTruthyStrOpt : Option String → Bool
  | none => false
  | some s => s != ""

/-- JS truthiness of a `number | null` value: `null` and `0` are falsy. -/
def jsTruthyIntOpt : Option Int → Bool
  | none => false
  | some n => n != 0

/-- JS `a || b` on `string | null` values. -/
def jsOrStr (a b : Option String) : Option String :=
  if jsTruthyStrOpt a then a else b

/-- JS `a || b` on `number | null` values (a present `0` falls through). -/
def jsOrInt (a b : Option Int) : Option Int :=
  if jsTruthyIntOpt a then a else b

/-- JS `a || b` on enum-or-null values: every enum member is a non-empty
string in JS, hence truthy, so `||` is first-some. -/
def jsOrEnum {α : Type} (a b : Option α) : Option α :=
  match a with
  | some x => some x
  | none => b

/-- JS `a ?? b` on `boolean | null` values: only `null`/`undefined` fall
through; a present `false` short-circuits. -/
def jsCoalesce (a b : Option Bool) : Option Bool :=
  match a with
  | some x => some x
  | none => b

/-- The value of a `string | null` variable used where JS would use the
string itself (after a truthiness guard). -/
def jsStr : Option String → String
  | some s => s
  | none => ""

/-- The value of a `number | null` variable used where JS would use the
number itself (after a truthiness guard). -/
def jsInt : Option Int → Int
  | some n => n
  | none => 0

/-- The callback request body, modelled as the JS values found at each of
the paths `POST` in `callback/route.ts` probes.  A missing path is
`JsVal.undef`.  (Paths are flattened: e.g. `context_external_id` is the
value at `body.context?.external_id`.) -/
structure CallbackBody where
  context_source_rider_call_id : JsVal
  context_source_call_id : JsVal
  call_id : JsVal
  callId : JsVal
  metadata_callId : JsVal
  run_id : JsVal
  runId : JsVal
  id : JsVal
  external_id : JsVal
  externalId : JsVal
  context_external_id : JsVal
  context_externalId : JsVal
  context : JsVal
  status : JsVal
  contact_status : JsVal
  call_status : JsVal
  result_call_status : JsVal
  result_contact_status : JsVal
  result_summary : JsVal
  summary : JsVal
  outputs_summary : JsVal
  extracted_summary : JsVal
  result_transcript : JsVal
  transcript : JsVal
  outputs_transcript : JsVal
  extracted_transcript : JsVal
  urgent_flag : JsVal
  urgent : JsVal
  result_urgent_flag : JsVal
  result_urgent : JsVal
  legal_issue_flag : JsVal
  legal_issue : JsVal
  result_legal_issue_flag : JsVal
  result_legal_issue : JsVal
  human_requested : JsVal
  humanRequested : JsVal
  result_human_requested : JsVal
  result_humanRequested : JsVal
deriving DecidableEq, Repr

/-- A request body with every probed path missing. -/
def emptyBody : CallbackBody :=
  { context_source_rider_call_id := JsVal.undef
    context_source_call_id := JsVal.undef
    call_id := JsVal.undef
    callId := JsVal.undef
    metadata_callId := JsVal.undef
    run_id := JsVal.undef
    runId := JsVal.undef
    id := JsVal.undef
    external_id := JsVal.undef
    externalId := JsVal.undef
    context_external_id := JsVal.undef
    context_externalId := JsVal.undef
    context := JsVal.undef
    status := JsVal.undef
    contact_status := JsVal.undef
    call_status := JsVal.undef
    result_call_status := JsVal.undef
    result_contact_status := JsVal.undef
    result_summary := JsVal.undef
    summary := JsVal.undef
    outputs_summary := JsVal.undef
    extracted_summary := JsVal.undef
    result_transcript := JsVal.undef
    transcript := JsVal.undef
    outputs_transcript := JsVal.undef
    extracted_transcript := JsVal.undef
    urgent_flag := JsVal.undef
    urgent := JsVal.undef
    result_urgent_flag := JsVal.undef
    result_urgent := JsVal.undef
    legal_issue_flag := JsVal.undef
    legal_issue := JsVal.undef
    result_legal_issue_flag := JsVal.undef
    result_legal_issue := JsVal.undef
    human_requested := JsVal.undef
    humanRequested := JsVal.undef
    result_human_requested := JsVal.undef
    result_humanRequested := JsVal.undef }

/-- Embeds the `riderCallId` extraction chain (internal Call id). -/
def extractRiderCallId (b : CallbackBody) : Option String :=
  jsOrStr (asString b.context_source_rider_call_id)
    (jsOrStr (asString b.context_source_call_id)
      (jsOrStr (asString b.call_id)
        (jsOrStr (asString b.callId) (asString b.metadata_callId))))

/-- Embeds the `runId` extraction chain (provider run identifier). -/
def extractRunId (b : CallbackBody) : Option String :=
  jsOrStr (asString b.run_id) (jsOrStr (asString b.runId) (asString b.id))

/-- Embeds the `externalId` extraction chain (numeric external id, possibly
under a bare `context`). -/
def extractExternalId (b : CallbackBody) : Option Int :=
  jsOrInt (asInt b.external_id)
    (jsOrInt (asInt b.externalId)
      (jsOrInt (asInt b.context_external_id)
        (jsOrInt (asInt b.context_externalId) (asInt b.context))))

/-- Embeds the `contactStatus` extraction chain. -/
def extractContactStatus (b : CallbackBody) : Option ContactStatus :=
  jsOrEnum (normalizeContactStatus b.contact_status)
    (jsOrEnum (normalizeContactStatus b.call_status)
      (jsOrEnum (normalizeContactStatus b.result_call_status)
        (normalizeContactStatus b.result_contact_status)))

/-- Embeds the `summary` extraction chain. -/
def extractSummary (b : CallbackBody) : Option String :=
  jsOrStr (asString b.result_summary)
    (jsOrStr (asString b.summary)
      (jsOrStr (asString b.outputs_summary) (asString b.extracted_summary)))

/-- Embeds the `transcript` extraction chain. -/
def extractTranscript (b : CallbackBody) : Option String :=
  jsOrStr (asString b.result_transcript)
    (jsOrStr (asString b.transcript)
      (jsOrStr (asString b.outputs_transcript) (asString b.extracted_transcript)))

/-- Embeds the `urgentFlag` extraction chain (`??`-chained). -/
def extractUrgentFlag (b : CallbackBody) : Option Bool :=
  jsCoalesce (asBoolean b.urgent_flag)
    (jsCoalesce (asBoolean b.urgent)
      (jsCoalesce (asBoolean b.result_urgent_flag) (asBoolean b.result_urgent)))

/-- Embeds the `legalIssueFlag` extraction chain (`??`-chained). -/
def extractLegalIssueFlag (b : CallbackBody) : Option Bool :=
  jsCoalesce (asBoolean b.legal_issue_flag)
    (jsCoalesce (asBoolean b.legal_issue)
      (jsCoalesce (asBoolean b.result_legal_issue_flag) (asBoolean b.result_legal_issue)))

/-- Embeds the `humanRequested` extraction chain (`??`-chained). -/
def extractHumanRequested (b : CallbackBody) : Option Bool :=
  jsCoalesce (asBoolean b.human_requested)
    (jsCoalesce (asBoolean b.humanRequested)
      (jsCoalesce (asBoolean b.result_human_requested) (asBoolean b.result_humanRequested)))

example : asBoolean (JsVal.str " Yes ") = some true := by decide
example : asBoolean (JsVal.str "t") = none := by decide
example : asInt (JsVal.str "42") = some 42 := by decide
example : asInt (JsVal.str "4x2") = none := by decide
example : extractExternalId { emptyBody with external_id := JsVal.int 0 } = none := by decide
example : extractExternalId { emptyBody with context := JsVal.str "42" } = some 42 := by decide

/-- A JSON value, for the `metadata` JSONB column.  Objects keep insertion
order, as JS objects do. -/
inductive Json where
  | jnull
  | jbool (b : Bool)
  | jnum (n : Int)
  | jstr (s : String)
  | jobj (fields : List (String × Json))
deriving Repr

/-- The fields a JS object spread `{...v}` contributes: an object's fields,
nothing for `null` (spreading `null` yields `{}`) or scalars. -/
def objFieldsOf : Json → List (String × Json)
  | Json.jobj fs => fs
  | _ => []

/-- Look a key up in an object's field list (`undefined` as `jnull`, which
`objFieldsOf` treats like a missing object, matching `typeof` checks). -/
def objGet (fs : List (String × Json)) (k : String) : Json :=
  match fs.find? (fun p => p.1 == k) with
  | some p => p.2
  | none => Json.jnull

/-- JS object-literal update semantics: `{...fs, k: v}` keeps the original
position of an existing key and appends a new one. -/
def objSet (fs : List (String × Json)) (k : String) (v : Json) : List (String × Json) :=
  if fs.any (fun p => p.1 == k) then
    fs.map (fun p => if p.1 == k then (k, v) else p)
  else fs ++ [(k, v)]

/-- Prisma enum members serialize to their names in JSON metadata. -/
def contactStatusName : ContactStatus → String
  | ContactStatus.PENDING => "PENDING"
  | ContactStatus.NO_ANSWER => "NO_ANSWER"
  | ContactStatus.VOICEMAIL => "VOICEMAIL"
  | ContactStatus.COMPLETED => "COMPLETED"

/-- A row of the `riders` table, restricted to the columns the callback,
trigger and import paths read or write outside opaque metadata snapshots. -/
structure Rider where
  id : String
  externalId : Option Int
  phoneNumber : String
  driverName : String
  lastContactAt : Option Nat
  lastContactStatus : Option ContactStatus
  urgentFlag : Bool
  legalIssueFlag : Bool
  humanRequested : Bool
  createdAt : Nat
  updatedAt : Nat
deriving Repr

/-- A row of the `rider_calls` table. -/
structure Call where
  id : String
  riderId : String
  runId : Option String
  status : CallStatus
  contactStatus : Option ContactStatus
  contactedAt : Option Nat
  transcript : Option String
  summary : Option String
  sentiment : Option String
  attempt : Option Int
  urgentFlag : Bool
  legalIssueFlag : Bool
  humanRequested : Bool
  metadata : Option Json
  errorMsg : Option String
  createdAt : Nat
  updatedAt : Nat
  completedAt : Option Nat
deriving Repr

/-- The entity store: the two tables the correlation engine touches. -/
structure Store where
  riders : List Rider
  calls : List Call
deriving Repr

/-- `tx.riderCall.findUnique({where: {id}})` (ids are unique). -/
def findCallById (st : Store) (i : String) : Option Call :=
  st.calls.find? (fun c => c.id == i)

/-- `tx.riderCall.findUnique({where: {runId}})` (run ids are unique). -/
def findCallByRunId (st : Store) (r : String) : Option Call :=
  st.calls.find? (fun c => c.runId == some r)

/-- `tx.rider.findUnique({where: {externalId}})` (external ids are unique). -/
def findRiderByExternalId (st : Store) (n : Int) : Option Rider :=
  st.riders.find? (fun r => r.externalId == some n)

/-- Point lookup of a rider by primary key. -/
def findRiderById (st : Store) (i : String) : Option Rider :=
  st.riders.find? (fun r => r.id == i)

/-- `findFirst({where: p, orderBy: {createdAt: "desc"}})`: the matching row
with the greatest creation instant. -/
def findLatestCall (st : Store) (p : Call → Bool) : Option Call :=
  (st.calls.filter p).foldl
    (fun acc c =>
      match acc with
      | none => some c
      | some best => if best.createdAt < c.createdAt then some c else some best)
    none

/-- The `OR` filter of the first `findFirst` in the external-id branch: a
call of the rider that is non-terminal or has a null/PENDING outcome. -/
def isOpenForCallback (riderId : String) (c : Call) : Bool :=
  c.riderId == riderId &&
    (c.status == CallStatus.PENDING || c.status == CallStatus.RUNNING ||
      c.contactStatus == none || c.contactStatus == some ContactStatus.PENDING)

/-- `tx.riderCall.create`: the row is appended to the table. -/
def insertCall (st : Store) (c : Call) : Store :=
  { st with calls := st.calls ++ [c] }

/-- `tx.riderCall.update({where: {id: c.id}})`: replace the row in place. -/
def updateCallInStore (st : Store) (c : Call) : Store :=
  { st with calls := st.calls.map (fun x => if x.id == c.id then c else x) }

/-- The fields the callback endpoint extracts from a request body before
opening the transaction. -/
structure CallbackExtract where
  riderCallId : Option String
  runId : Option String
  externalId : Option Int
  status : Option CallStatus
  contactStatus : Option ContactStatus
  summary : Option String
  transcript : Option String
  urgentFlag : Option Bool
  legalIssueFlag : Option Bool
  humanRequested : Option Bool
deriving Repr

/-- Runs all the extraction chains of `POST` in `callback/route.ts`. -/
def extractCallback (b : CallbackBody) : CallbackExtract :=
  { riderCallId := extractRiderCallId b
    runId := extractRunId b
    externalId := extractExternalId b
    status := normalizeStatus b.status
    contactStatus := extractContactStatus b
    summary := extractSummary b
    transcript := extractTranscript b
    urgentFlag := extractUrgentFlag b
    legalIssueFlag := extractLegalIssueFlag b
    humanRequested := extractHumanRequested b }

/-- Embeds the `mergedMetadata` computation (callback route, lines 211-232):
spread the existing metadata, deep-merge the `workflowResult` object with
the non-absent incoming fields plus a `lastCallbackAt` stamp, and overwrite
the `happyrobotCallback` receipt. -/
def mergedMetadata (now : Nat) (e : CallbackExtract) (existing : Call) : Json :=
  let base := match existing.metadata with
    | some j => objFieldsOf j
    | none => []
  let w := objFieldsOf (objGet base "workflowResult")
  let w := match e.summary with
    | some s => if s != "" then objSet w "summary" (Json.jstr s) else w
    | none => w
  let w := match e.transcript with
    | some s => if s != "" then objSet w "transcript" (Json.jstr s) else w
    | none => w
  let w := match e.contactStatus with
    | some cs => objSet w "contactStatus" (Json.jstr (contactStatusName cs))
    | none => w
  let w := match e.urgentFlag with
    | some fl => objSet w "urgentFlag" (Json.jbool fl)
    | none => w
  let w := match e.legalIssueFlag with
    | some fl => objSet w "legalIssueFlag" (Json.jbool fl)
    | none => w
  let w := match e.humanRequested with
    | some fl => objSet w "humanRequested" (Json.jbool fl)
    | none => w
  let w := objSet w "lastCallbackAt" (Json.jstr (toString now))
  let receipt := Json.jobj
    [("receivedAt", Json.jstr (toString now)),
     ("runId",
       match jsOrStr e.runId existing.runId with
       | some s => Json.jstr s
       | none => Json.jnull)]
  Json.jobj (objSet (objSet base "workflowResult" (Json.jobj w)) "happyrobotCallback" receipt)

/-- Embeds the `tx.riderCall.update` data object of the callback route
(lines 239-254): write the run id only when the call has none, overwrite the
status whenever the payload supplied one, stamp `completedAt` when the
incoming status is terminal, always advance `contactedAt`, and overwrite the
outcome fields only when supplied.  Prisma bumps `updatedAt` on every
mutation. -/
def applyCallUpdate (now : Nat) (e : CallbackExtract) (existing : Call) : Call :=
  let terminalStatus :=
    e.status == some CallStatus.COMPLETED ||
    e.status == some CallStatus.FAILED ||
    e.status == some CallStatus.CANCELED
  { existing with
    runId :=
      if jsTruthyStrOpt e.runId && !jsTruthyStrOpt existing.runId then e.runId
      else existing.runId
    status := match e.status with
      | some s => s
      | none => existing.status
    completedAt := if terminalStatus then some now else existing.completedAt
    contactStatus := match e.contactStatus with
      | some cs => some cs
      | none => existing.contactStatus
    contactedAt := some now
    summary := if jsTruthyStrOpt e.summary then e.summary else existing.summary
    transcript := if jsTruthyStrOpt e.transcript then e.transcript else existing.transcript
    urgentFlag := match e.urgentFlag with
      | some fl => fl
      | none => existing.urgentFlag
    legalIssueFlag := match e.legalIssueFlag with
      | some fl => fl
      | none => existing.legalIssueFlag
    humanRequested := match e.humanRequested with
      | some fl => fl
      | none => existing.humanRequested
    metadata := some (mergedMetadata now e existing)
    updatedAt := now }

/-- Embeds the `tx.rider.update` data object of the callback route
(lines 257-266): always advance `lastContactAt`, and overwrite the outcome
projection fields only when the payload supplied them. -/
def applyRiderUpdate (now : Nat) (e : CallbackExtract) (r : Rider) : Rider :=
  { r with
    lastContactAt := some now
    lastContactStatus := match e.contactStatus with
      | some cs => some cs
      | none => r.lastContactStatus
    urgentFlag := match e.urgentFlag with
      | some fl => fl
      | none => r.urgentFlag
    legalIssueFlag := match e.legalIssueFlag with
      | some fl => fl
      | none => r.legalIssueFlag
    humanRequested := match e.humanRequested with
      | some fl => fl
      | none => r.humanRequested
    updatedAt := now }

/-- Embeds the `tx.riderCall.create` of the external-id branch (callback
route, lines 188-205): a call created when the matched rider has no calls,
pre-populated from the already-normalized payload with COMPLETED defaults
and timestamped now.  `extId` is the truthy external id that matched. -/
def createCallFromCallback (now : Nat) (freshId : String) (riderId : String)
    (extId : Int) (e : CallbackExtract) : Call :=
  { id := freshId
    riderId := riderId
    runId := if jsTruthyStrOpt e.runId then e.runId else none
    status := match e.status with
      | some s => s
      | none => CallStatus.COMPLETED
    contactStatus := some (match e.contactStatus with
      | some cs => cs
      | none => ContactStatus.COMPLETED)
    contactedAt := some now
    transcript := if jsTruthyStrOpt e.transcript then e.transcript else none
    summary := if jsTruthyStrOpt e.summary then e.summary else none
    sentiment := none
    attempt := none
    urgentFlag := e.urgentFlag.getD false
    legalIssueFlag := e.legalIssueFlag.getD false
    humanRequested := e.humanRequested.getD false
    metadata := some (Json.jobj
      [("source", Json.jstr "callback_external_id"),
       ("externalId", Json.jnum extId)])
    errorMsg := none
    createdAt := now
    updatedAt := now
    completedAt := none }

/-- Embeds the external-id fallback of the callback transaction (lines
162-207): resolve the owning rider by external id; if found, pick its
latest open call, else its latest call of any status, else create one.
Returns the possibly-extended store and the resolved call. -/
def resolveByExternalId (now : Nat) (freshId : String) (e : CallbackExtract)
    (st : Store) : Store × Option Call :=
  match findRiderByExternalId st (jsInt e.externalId) with
  | none => (st, none)
  | some rider =>
    let found :=
      jsOrEnum (findLatestCall st (fun c => isOpenForCallback rider.id c))
        (findLatestCall st (fun c => c.riderId == rider.id))
    match found with
    | some c => (st, some c)
    | none =>
      let created := createCallFromCallback now freshId rider.id (jsInt e.externalId) e
      (insertCall st created, some created)

/-- Embeds the resolution part of the callback transaction (lines 152-209):
unique lookup by internal id if one is truthy, else by run id if one is
truthy; when that found nothing and a truthy external id exists, fall back
to `resolveByExternalId`. -/
def resolveCall (now : Nat) (freshId : String) (e : CallbackExtract) (st : Store) :
    Store × Option Call :=
  let existing0 : Option Call :=
    if jsTruthyStrOpt e.riderCallId then findCallById st (jsStr e.riderCallId)
    else if jsTruthyStrOpt e.runId then findCallByRunId st (jsStr e.runId)
    else none
  if existing0.isNone && jsTruthyIntOpt e.externalId then
    resolveByExternalId now freshId e st
  else (st, existing0)

/-- Embeds the whole `prisma.$transaction` body of the callback route: after
resolution, merge the call and propagate the projection to its parent rider
(which exists by the foreign-key invariant), atomically. -/
def runCallbackTransaction (now : Nat) (freshId : String) (e : CallbackExtract)
    (st : Store) : Option Call × Store :=
  match resolveCall now freshId e st with
  | (stA, none) => (none, stA)
  | (stA, some existing) =>
    let updatedCall := applyCallUpdate now e existing
    let stB := updateCallInStore stA updatedCall
    let stC := { stB with
      riders := stB.riders.map
        (fun r => if r.id == updatedCall.riderId then applyRiderUpdate now e r else r) }
    (some updatedCall, stC)

/-- The observable outcome of a callback request (after authentication and
JSON parsing, which are outside the modelled core). -/
inductive CallbackOutcome where
  | missingCorrelationId
  | notFound
  | ok (c : Call)
deriving Repr

/-- Embeds `POST` of `callback/route.ts` from the extraction step on: reject
when no identifier of any kind is truthy, otherwise run the transaction and
map a null result to not-found. -/
def processCallback (now : Nat) (freshId : String) (b : CallbackBody) (st : Store) :
    CallbackOutcome × Store :=
  let e := extractCallback b
  if !jsTruthyStrOpt e.riderCallId && !jsTruthyStrOpt e.runId &&
      !jsTruthyIntOpt e.externalId then
    (CallbackOutcome.missingCorrelationId, st)
  else
    match runCallbackTransaction now freshId e st with
    | (none, st1) => (CallbackOutcome.notFound, st1)
    | (some c, st1) => (CallbackOutcome.ok c, st1)

/-- Embeds the `prisma.riderCall.create` of the trigger route: a fresh
PENDING call with a metadata snapshot of the rider (restricted to the
modelled rider columns). -/
def triggerCreateCall (now : Nat) (freshId : String) (rider : Rider) : Call :=
  { id := freshId
    riderId := rider.id
    runId := none
    status := CallStatus.PENDING
    contactStatus := none
    contactedAt := none
    transcript := none
    summary := none
    sentiment := none
    attempt := none
    urgentFlag := false
    legalIssueFlag := false
    humanRequested := false
    metadata := some (Json.jobj
      [("source", Json.jobj [("app", Json.jstr "uber-rider-onboarding")]),
       ("riderSnapshot", Json.jobj
         [("externalId",
            match rider.externalId with
            | some n => Json.jnum n
            | none => Json.jnull),
          ("driverName", Json.jstr rider.driverName),
          ("phoneNumber", Json.jstr rider.phoneNumber)])])
    errorMsg := none
    createdAt := now
    updatedAt := now
    completedAt := none }

/-- A rider row used by the concrete scenarios. -/
def sampleRider : Rider :=
  { id := "r1"
    externalId := some 7
    phoneNumber := "+34600111222"
    driverName := "Ana"
    lastContactAt := none
    lastContactStatus := none
    urgentFlag := false
    legalIssueFlag := false
    humanRequested := false
    createdAt := 0
    updatedAt := 0 }

/-- A freshly created call row with every nullable column null. -/
def baseCall : Call :=
  { id := "c0"
    riderId := "r1"
    runId := none
    status := CallStatus.PENDING
    contactStatus := none
    contactedAt := none
    transcript := none
    summary := none
    sentiment := none
    attempt := none
    urgentFlag := false
    legalIssueFlag := false
    humanRequested := false
    metadata := none
    errorMsg := none
    createdAt := 0
    updatedAt := 0
    completedAt := none }

/-- A call that already reached the terminal state COMPLETED at instant 1
(the state after Scenario B of the spec). -/
def completedCall : Call :=
  { baseCall with
    id := "c1"
    runId := some "run_1"
    status := CallStatus.COMPLETED
    contactStatus := some ContactStatus.COMPLETED
    contactedAt := some 1
    summary := some "ok"
    urgentFlag := true
    updatedAt := 1
    completedAt := some 1 }

/-- The store holding `sampleRider` and `completedCall`. -/
def storeCompleted : Store := { riders := [sampleRider], calls := [completedCall] }

/-- Scenario C's second callback: `{run_id:"run_1", status:"failed"}`. -/
def lateFailedBody : CallbackBody :=
  { emptyBody with run_id := JsVal.str "run_1", status := JsVal.str "failed" }

/-- Projection of an outcome onto the returned call's status. -/
def outcomeStatus : CallbackOutcome → Option CallStatus
  | CallbackOutcome.ok c => some c.status
  | _ => none

example :
    outcomeStatus (processCallback 10 "n1" lateFailedBody storeCompleted).1 =
      some CallStatus.FAILED := by decide

/-- The extraction of Scenario C's second callback. -/
def lateFailedExtract : CallbackExtract := extractCallback lateFailedBody

/-- C1 counterexample: a callback naming status "failed" for the already
COMPLETED call `c1` does not leave the status unchanged — the merge
overwrites it to FAILED (the claim predicts it stays COMPLETED). -/
theorem C1_counterexample :
    completedCall.status = CallStatus.COMPLETED ∧
    outcomeStatus (processCallback 10 "n1" lateFailedBody storeCompleted).1 =
      some CallStatus.FAILED := by
  exact ⟨rfl, by decide⟩

/-- C1 (amended): the Result Merger has no terminal-state guard — whenever
the payload supplies a recognized status, the Call's status is overwritten
with it even when the Call's status is already terminal; the contact
timestamp still advances to the new now. -/
theorem C1_terminal_status_overwritten (now : Nat) (e : CallbackExtract) (c : Call)
    (s : CallStatus)
    (_hterm : c.status = CallStatus.COMPLETED ∨ c.status = CallStatus.FAILED ∨
      c.status = CallStatus.CANCELED)
    (hs : e.status = some s) :
    (applyCallUpdate now e c).status = s ∧
    (applyCallUpdate now e c).contactedAt = some now := by
  unfold applyCallUpdate
  rw [hs]
  exact ⟨rfl, rfl⟩

/-- C1 witness: the amended theorem applied to Scenario C's concrete input. -/
theorem C1_witness :
    (applyCallUpdate 10 lateFailedExtract completedCall).status = CallStatus.FAILED ∧
    (applyCallUpdate 10 lateFailedExtract completedCall).contactedAt = some 10 :=
  C1_terminal_status_overwritten 10 lateFailedExtract completedCall CallStatus.FAILED
    (Or.inl rfl) (by decide)

/-- C2 counterexample: `c1` has `completedAt = some 1`; a second terminal
callback at instant 10 changes it to `some 10` (the claim says it never
changes once non-null). -/
theorem C2_counterexample :
    completedCall.completedAt = some 1 ∧
    (applyCallUpdate 10 lateFailedExtract completedCall).completedAt = some 10 := by
  exact ⟨rfl, by decide⟩

/-- C2 (amended): `completedAt` is stamped to the current now on every merge
whose payload carries a terminal status — also when it is already set, so
repeated terminal callbacks move it; it is unchanged exactly when the
payload status is absent or non-terminal. -/
theorem C2_completedAt_restamped (now : Nat) (e : CallbackExtract) (c : Call) :
    ((e.status = some CallStatus.COMPLETED ∨ e.status = some CallStatus.FAILED ∨
        e.status = some CallStatus.CANCELED) →
      (applyCallUpdate now e c).completedAt = some now) ∧
    (¬(e.status = some CallStatus.COMPLETED ∨ e.status = some CallStatus.FAILED ∨
        e.status = some CallStatus.CANCELED) →
      (applyCallUpdate now e c).completedAt = c.completedAt) := by
  constructor
  · rintro (h | h | h) <;> (unfold applyCallUpdate; rw [h]) <;> rfl
  · intro h
    unfold applyCallUpdate
    rcases hs : e.status with _ | s
    · rfl
    · cases s
      · rfl
      · rfl
      · exact absurd (Or.inl hs) h
      · exact absurd (Or.inr (Or.inl hs)) h
      · exact absurd (Or.inr (Or.inr hs)) h

/-- C2 witness: the amended theorem applied to the concrete repeat-terminal
callback. -/
theorem C2_witness :
    (applyCallUpdate 10 lateFailedExtract completedCall).completedAt = some 10 :=
  (C2_completedAt_restamped 10 lateFailedExtract completedCall).1
    (Or.inr (Or.inl (by decide)))

/-- A late callback carrying a different run identifier for `c1`. -/
def differentRunIdBody : CallbackBody :=
  { emptyBody with call_id := JsVal.str "c1", run_id := JsVal.str "run_2" }

/-- C3: the run identifier is written by a merge only when the stored one is
null and the payload supplies a (truthy) one; a non-null stored run
identifier is never overwritten. -/
theorem C3_runId_write_once (now : Nat) (e : CallbackExtract) (c : Call) :
    (∀ r : String, c.runId = some r → r ≠ "" →
      (applyCallUpdate now e c).runId = some r) ∧
    (c.runId = none →
      (applyCallUpdate now e c).runId =
        if jsTruthyStrOpt e.runId then e.runId else none) := by
  constructor
  · intro r h hr
    unfold applyCallUpdate
    have htr : jsTruthyStrOpt c.runId = true := by
      rw [h]; simpa [jsTruthyStrOpt] using hr
    rw [htr]
    simp [h]
  · intro h
    unfold applyCallUpdate
    rw [h]
    simp [jsTruthyStrOpt]

/-- C3 witness: a merge carrying run id "run_2" leaves `c1`'s stored
"run_1" untouched. -/
theorem C3_witness :
    (applyCallUpdate 10 (extractCallback differentRunIdBody) completedCall).runId =
      some "run_1" :=
  (C3_runId_write_once 10 (extractCallback differentRunIdBody) completedCall).1
    "run_1" rfl (by decide)

/-- A callback that carries only a correlation id: every optional field is
absent. -/
def idOnlyBody : CallbackBody := { emptyBody with call_id := JsVal.str "c1" }

/-- C4: a field absent from the payload never resets the stored value — for
each escalation flag both the Call's and the Rider's value survive, and the
Call's contact outcome, summary and transcript survive. -/
theorem C4_absent_never_resets (now : Nat) (e : CallbackExtract) (c : Call) (r : Rider) :
    (e.urgentFlag = none →
      (applyCallUpdate now e c).urgentFlag = c.urgentFlag ∧
      (applyRiderUpdate now e r).urgentFlag = r.urgentFlag) ∧
    (e.legalIssueFlag = none →
      (applyCallUpdate now e c).legalIssueFlag = c.legalIssueFlag ∧
      (applyRiderUpdate now e r).legalIssueFlag = r.legalIssueFlag) ∧
    (e.humanRequested = none →
      (applyCallUpdate now e c).humanRequested = c.humanRequested ∧
      (applyRiderUpdate now e r).humanRequested = r.humanRequested) ∧
    (e.contactStatus = none →
      (applyCallUpdate now e c).contactStatus = c.contactStatus) ∧
    (e.summary = none → (applyCallUpdate now e c).summary = c.summary) ∧
    (e.transcript = none → (applyCallUpdate now e c).transcript = c.transcript) := by
  refine ⟨fun h => ⟨?_, ?_⟩, fun h => ⟨?_, ?_⟩, fun h => ⟨?_, ?_⟩,
    fun h => ?_, fun h => ?_, fun h => ?_⟩ <;>
    simp only [applyCallUpdate, applyRiderUpdate] <;> rw [h] <;>
    simp [jsTruthyStrOpt]

/-- C4 witness: the id-only callback leaves `c1`'s urgent flag (and the
rider's) unchanged. -/
theorem C4_witness :
    (applyCallUpdate 10 (extractCallback idOnlyBody) completedCall).urgentFlag =
      completedCall.urgentFlag ∧
    (applyRiderUpdate 10 (extractCallback idOnlyBody) sampleRider).urgentFlag =
      sampleRider.urgentFlag :=
  (C4_absent_never_resets 10 (extractCallback idOnlyBody) completedCall sampleRider).1
    (by decide)

/-- A callback carrying an internal call id that matches no record together
with a run id that does match one. -/
def missedIdBody : CallbackBody :=
  { emptyBody with call_id := JsVal.str "missing", run_id := JsVal.str "run_1" }

/-- C5 counterexample: the store resolves "run_1" to `c1`, yet a payload
carrying the unmatched call id "missing" alongside run id "run_1" ends in
not-found — the run-identifier step is never attempted after a call-id miss
(the claim says it must be). -/
theorem C5_counterexample :
    findCallByRunId storeCompleted "run_1" = some completedCall ∧
    processCallback 10 "n5" missedIdBody storeCompleted =
      (CallbackOutcome.notFound, storeCompleted) :=
  ⟨rfl, rfl⟩

/-- C5 (amended): the resolver picks at most one unique-lookup key — the
internal call id when one is truthy, else the run id; a call-id miss falls
through only to the external-id step (when a truthy external id exists) and
otherwise fails, never retrying by run id. -/
theorem C5_one_unique_lookup (now : Nat) (fid : String) (e : CallbackExtract) (st : Store) :
    (jsTruthyStrOpt e.riderCallId = true →
      ∀ c : Call, findCallById st (jsStr e.riderCallId) = some c →
        (runCallbackTransaction now fid e st).1 = some (applyCallUpdate now e c)) ∧
    (jsTruthyStrOpt e.riderCallId = true → jsTruthyIntOpt e.externalId = false →
      findCallById st (jsStr e.riderCallId) = none →
      runCallbackTransaction now fid e st = (none, st)) ∧
    (jsTruthyStrOpt e.riderCallId = false → jsTruthyStrOpt e.runId = true →
      ∀ c : Call, findCallByRunId st (jsStr e.runId) = some c →
        (runCallbackTransaction now fid e st).1 = some (applyCallUpdate now e c)) := by
  refine ⟨fun h1 c hc => ?_, fun h1 h2 hc => ?_, fun h1 h2 c hc => ?_⟩
  · unfold runCallbackTransaction resolveCall
    rw [h1, hc]
    rfl
  · unfold runCallbackTransaction resolveCall
    rw [h1, hc, h2]
    rfl
  · unfold runCallbackTransaction resolveCall
    rw [h1, h2, hc]
    rfl

/-- C5 witness: with no call id present, the run id does resolve `c1`. -/
theorem C5_witness :
    (runCallbackTransaction 10 "w5" lateFailedExtract storeCompleted).1 =
      some (applyCallUpdate 10 lateFailedExtract completedCall) :=
  (C5_one_unique_lookup 10 "w5" lateFailedExtract storeCompleted).2.2 rfl rfl
    completedCall rfl

/-- The external-id fallback only ever appends to the calls table. -/
theorem resolveByExternalId_riders_eq (now : Nat) (fid : String)
    (e : CallbackExtract) (st : Store) :
    (resolveByExternalId now fid e st).1.riders = st.riders := by
  unfold resolveByExternalId
  rcases findRiderByExternalId st (jsInt e.externalId) with _ | rider
  · rfl
  · dsimp only
    rcases jsOrEnum (findLatestCall st (fun c => isOpenForCallback rider.id c))
        (findLatestCall st (fun c => c.riderId == rider.id)) with _ | c
    · rfl
    · rfl

/-- Resolution only ever appends to the calls table; the riders table is
untouched until the projection update. -/
theorem resolveCall_riders_eq (now : Nat) (fid : String) (e : CallbackExtract)
    (st : Store) : (resolveCall now fid e st).1.riders = st.riders := by
  unfold resolveCall
  dsimp only
  rcases hex : (if jsTruthyStrOpt e.riderCallId then findCallById st (jsStr e.riderCallId)
      else if jsTruthyStrOpt e.runId then findCallByRunId st (jsStr e.runId)
      else none) with _ | c
  · cases hext : jsTruthyIntOpt e.externalId
    · rfl
    · simpa using resolveByExternalId_riders_eq now fid e st
  · rfl

/-- Updating a call row leaves the riders table unchanged. -/
theorem updateCallInStore_riders_eq (st : Store) (c : Call) :
    (updateCallInStore st c).riders = st.riders := rfl

/-- C6 (amended): a successful callback merge always rewrites the parent
Rider's projection — `lastContactAt` becomes the new now unconditionally,
and each outcome/flag field is copied exactly when the payload supplied it;
fields absent from the payload keep their previous Rider values, which may
therefore differ from the merged (most recently updated) Call's fields. -/
theorem C6_projection_propagation (now : Nat) (fid : String) (e : CallbackExtract)
    (st : Store) (c' : Call)
    (h : (runCallbackTransaction now fid e st).1 = some c') :
    (runCallbackTransaction now fid e st).2.riders =
      st.riders.map (fun r => if r.id == c'.riderId then applyRiderUpdate now e r else r) ∧
    (∀ r : Rider, (applyRiderUpdate now e r).lastContactAt = some now) ∧
    (∀ (r : Rider) (cs : ContactStatus), e.contactStatus = some cs →
      (applyRiderUpdate now e r).lastContactStatus = some cs) ∧
    (∀ (r : Rider) (fl : Bool), e.urgentFlag = some fl →
      (applyRiderUpdate now e r).urgentFlag = fl) ∧
    (∀ (r : Rider) (fl : Bool), e.legalIssueFlag = some fl →
      (applyRiderUpdate now e r).legalIssueFlag = fl) ∧
    (∀ (r : Rider) (fl : Bool), e.humanRequested = some fl →
      (applyRiderUpdate now e r).humanRequested = fl) := by
  refine ⟨?_, fun r => rfl, fun r cs hcs => ?_, fun r fl hfl => ?_,
    fun r fl hfl => ?_, fun r fl hfl => ?_⟩
  · have hr := resolveCall_riders_eq now fid e st
    unfold runCallbackTransaction at h ⊢
    rcases hres : resolveCall now fid e st with ⟨stA, oc⟩
    rw [hres] at h hr
    cases oc with
    | none => simp at h
    | some existing =>
      have hc : applyCallUpdate now e existing = c' := by
        simpa using h
      have hr' : stA.riders = st.riders := hr
      simp only [updateCallInStore_riders_eq, hc, hr']
  · unfold applyRiderUpdate; rw [hcs]
  · unfold applyRiderUpdate; rw [hfl]
  · unfold applyRiderUpdate; rw [hfl]
  · unfold applyRiderUpdate; rw [hfl]

/-- C6 witness: the amended theorem applied to Scenario C's concrete merge. -/
theorem C6_witness :
    (applyRiderUpdate 10 lateFailedExtract sampleRider).lastContactAt = some 10 :=
  (C6_projection_propagation 10 "w6" lateFailedExtract storeCompleted
    (applyCallUpdate 10 lateFailedExtract completedCall) rfl).2.1 sampleRider

/-- A rider reached only by in-app correlation (no external id). -/
def riderR6 : Rider := { sampleRider with id := "r6", externalId := none }

/-- First triggered call for `riderR6`, created at instant 1. -/
def callA6 : Call := triggerCreateCall 1 "a6" riderR6

/-- Store after the first trigger. -/
def store6a : Store := { riders := [riderR6], calls := [callA6] }

/-- First callback: resolves call "a6" and reports outcome voicemail. -/
def body6first : CallbackBody :=
  { emptyBody with call_id := JsVal.str "a6", contact_status := JsVal.str "voicemail" }

/-- Store after the first callback is processed at instant 2. -/
def store6b : Store := (processCallback 2 "p6" body6first store6a).2

/-- Second triggered call for `riderR6`, created at instant 3. -/
def callB6 : Call := triggerCreateCall 3 "b6" riderR6

/-- Store after the second trigger. -/
def store6c : Store := insertCall store6b callB6

/-- Second callback: resolves call "b6", carries a summary but no contact
outcome and no flags. -/
def body6second : CallbackBody :=
  { emptyBody with call_id := JsVal.str "b6", summary := JsVal.str "ok" }

/-- Store after the second callback is processed at instant 4. -/
def store6d : Store := (processCallback 4 "q6" body6second store6c).2

/-- C6 counterexample: after the sequence trigger/callback/trigger/callback,
the rider's projected outcome (VOICEMAIL, from the first callback) differs
from the contact outcome (null) of call "b6", which is strictly the most
recently updated call (updatedAt 4 versus 2) — so the rider's projection
fields do not always equal those of the most recently updated Call, against
the claim. -/
theorem C6_counterexample :
    (findRiderById store6d "r6").map (fun r => r.lastContactStatus) =
      some (some ContactStatus.VOICEMAIL) ∧
    (findCallById store6d "b6").map (fun c => c.contactStatus) = some none ∧
    (findCallById store6d "b6").map (fun c => c.updatedAt) = some 4 ∧
    (findCallById store6d "a6").map (fun c => c.updatedAt) = some 2 :=
  ⟨rfl, rfl, rfl, rfl⟩

/-- A latest-call query over a predicate that rejects every stored call
finds nothing. -/
theorem findLatestCall_none (st : Store) (p : Call → Bool)
    (h : ∀ c ∈ st.calls, p c = false) : findLatestCall st p = none := by
  unfold findLatestCall
  have hf : st.calls.filter p = [] := by
    rw [List.filter_eq_nil_iff]
    intro a ha
    simp [h a ha]
  rw [hf]
  rfl

/-- C7: a callback whose only correlation key is an external id matching no
rider ends in not-found with the store untouched. -/
theorem C7_external_miss_discards (now : Nat) (fid : String) (b : CallbackBody)
    (st : Store)
    (h1 : extractRiderCallId b = none) (h2 : extractRunId b = none)
    (h3 : jsTruthyIntOpt (extractExternalId b) = true)
    (h4 : findRiderByExternalId st (jsInt (extractExternalId b)) = none) :
    processCallback now fid b st = (CallbackOutcome.notFound, st) := by
  unfold processCallback runCallbackTransaction resolveCall resolveByExternalId
    extractCallback
  rw [h1, h2]
  dsimp only [jsTruthyStrOpt]
  rw [h3, h4]
  rfl

/-- Scenario E's payload: only `{context: "999"}`. -/
def context999Body : CallbackBody := { emptyBody with context := JsVal.str "999" }

/-- C7 witness: Scenario E against the store whose only rider has external
id 7. -/
theorem C7_witness :
    processCallback 10 "w7" context999Body storeCompleted =
      (CallbackOutcome.notFound, storeCompleted) :=
  C7_external_miss_discards 10 "w7" context999Body storeCompleted
    (by decide) (by decide) (by decide) rfl

/-- The call the external-id fallback persists for a rider with no calls:
the freshly created row after the merge step that follows it inside the
same transaction. -/
def createdThenMerged (now : Nat) (fid : String) (b : CallbackBody)
    (riderId : String) : Call :=
  applyCallUpdate now (extractCallback b)
    (createCallFromCallback now fid riderId (jsInt (extractExternalId b))
      (extractCallback b))

/-- C8: a callback whose only correlation key is an external id matching a
rider with zero calls creates a call for that rider — owned by the rider,
carrying the payload's normalized status and contact outcome with COMPLETED
defaults, contacted and created at now — and persists it in the store. -/
theorem C8_creates_prepopulated_call (now : Nat) (fid : String) (b : CallbackBody)
    (st : Store) (rider : Rider)
    (h1 : extractRiderCallId b = none) (h2 : extractRunId b = none)
    (h3 : jsTruthyIntOpt (extractExternalId b) = true)
    (h4 : findRiderByExternalId st (jsInt (extractExternalId b)) = some rider)
    (h5 : ∀ c ∈ st.calls, c.riderId ≠ rider.id) :
    (processCallback now fid b st).1 =
      CallbackOutcome.ok (createdThenMerged now fid b rider.id) ∧
    createdThenMerged now fid b rider.id ∈ (processCallback now fid b st).2.calls ∧
    (createdThenMerged now fid b rider.id).riderId = rider.id ∧
    (createdThenMerged now fid b rider.id).id = fid ∧
    (createdThenMerged now fid b rider.id).status =
      (match normalizeStatus b.status with
        | some s => s
        | none => CallStatus.COMPLETED) ∧
    (createdThenMerged now fid b rider.id).contactStatus =
      some (match extractContactStatus b with
        | some cs => cs
        | none => ContactStatus.COMPLETED) ∧
    (createdThenMerged now fid b rider.id).contactedAt = some now ∧
    (createdThenMerged now fid b rider.id).createdAt = now := by
  have hopen : findLatestCall st (fun c => isOpenForCallback rider.id c) = none := by
    apply findLatestCall_none
    intro c hc
    unfold isOpenForCallback
    rw [beq_eq_false_iff_ne.mpr (h5 c hc), Bool.false_and]
  have hany : findLatestCall st (fun c => c.riderId == rider.id) = none := by
    apply findLatestCall_none
    intro c hc
    exact beq_eq_false_iff_ne.mpr (h5 c hc)
  have hproc : processCallback now fid b st =
      (CallbackOutcome.ok (createdThenMerged now fid b rider.id),
        { riders := st.riders.map (fun r =>
            if r.id == (createdThenMerged now fid b rider.id).riderId then
              applyRiderUpdate now (extractCallback b) r
            else r)
          calls := (st.calls ++
              [createCallFromCallback now fid rider.id (jsInt (extractExternalId b))
                (extractCallback b)]).map (fun x =>
            if x.id == (createdThenMerged now fid b rider.id).id then
              createdThenMerged now fid b rider.id
            else x) }) := by
    unfold createdThenMerged
    unfold processCallback runCallbackTransaction resolveCall resolveByExternalId
      extractCallback
    rw [h1, h2]
    dsimp only [jsTruthyStrOpt]
    rw [h3, h4]
    dsimp only
    rw [hopen, hany]
    rfl
  refine ⟨by rw [hproc], ?_, rfl, rfl, ?_, ?_, rfl, rfl⟩
  · rw [hproc]
    dsimp only
    refine List.mem_map.mpr
      ⟨createCallFromCallback now fid rider.id (jsInt (extractExternalId b))
        (extractCallback b), by simp, ?_⟩
    have hid : (createdThenMerged now fid b rider.id).id = fid := rfl
    rw [hid]
    rw [if_pos]
    exact beq_self_eq_true fid
  · unfold createdThenMerged applyCallUpdate createCallFromCallback extractCallback
    rcases hs : normalizeStatus b.status with _ | s <;> rfl
  · unfold createdThenMerged applyCallUpdate createCallFromCallback extractCallback
    rcases hcs : extractContactStatus b with _ | cs <;> rfl

/-- A store holding `sampleRider` (external id 7) and no calls at all. -/
def emptyCallsStore : Store := { riders := [sampleRider], calls := [] }

/-- Scenario D-style payload: only `{context: "7"}`. -/
def context7Body : CallbackBody := { emptyBody with context := JsVal.str "7" }

/-- C8 witness: the creation theorem applied to the call-free store. -/
theorem C8_witness :
    (processCallback 10 "w8" context7Body emptyCallsStore).1 =
      CallbackOutcome.ok (createdThenMerged 10 "w8" context7Body sampleRider.id) :=
  (C8_creates_prepopulated_call 10 "w8" context7Body emptyCallsStore sampleRider
    (by decide) (by decide) (by decide) rfl
    (fun c hc => absurd hc (List.not_mem_nil c))).1

/-- A successful `asString` never returns the empty string. -/
theorem asString_ne_empty (v : JsVal) (s : String) (h : asString v = some s) :
    s ≠ "" := by
  cases v with
  | str s0 =>
    simp only [asString] at h
    by_cases hcond : (jsTrim s0 != "") = true
    · rw [if_pos hcond] at h
      injection h with h'
      subst h'
      intro hempty
      rw [hempty] at hcond
      exact absurd hcond (by decide)
    · rw [if_neg hcond] at h
      exact absurd h (by simp)
  | undef => exact absurd h (by simp [asString])
  | jsNull => exact absurd h (by simp [asString])
  | boolVal b0 => exact absurd h (by simp [asString])
  | int n0 => exact absurd h (by simp [asString])
  | objVal => exact absurd h (by simp [asString])

/-- JS `a || b` on strings yields one of its operands when it yields
anything. -/
theorem jsOrStr_eq_some (a b' : Option String) (s : String)
    (h : jsOrStr a b' = some s) : a = some s ∨ b' = some s := by
  unfold jsOrStr at h
  split at h
  · exact Or.inl h
  · exact Or.inr h

/-- The extracted internal call id is never the empty string. -/
theorem extractRiderCallId_ne_empty (b : CallbackBody) (s : String)
    (h : extractRiderCallId b = some s) : s ≠ "" := by
  unfold extractRiderCallId at h
  rcases jsOrStr_eq_some _ _ _ h with h | h
  · exact asString_ne_empty _ _ h
  rcases jsOrStr_eq_some _ _ _ h with h | h
  · exact asString_ne_empty _ _ h
  rcases jsOrStr_eq_some _ _ _ h with h | h
  · exact asString_ne_empty _ _ h
  rcases jsOrStr_eq_some _ _ _ h with h | h
  · exact asString_ne_empty _ _ h
  · exact asString_ne_empty _ _ h

/-- The extracted run id is never the empty string. -/
theorem extractRunId_ne_empty (b : CallbackBody) (s : String)
    (h : extractRunId b = some s) : s ≠ "" := by
  unfold extractRunId at h
  rcases jsOrStr_eq_some _ _ _ h with h | h
  · exact asString_ne_empty _ _ h
  rcases jsOrStr_eq_some _ _ _ h with h | h
  · exact asString_ne_empty _ _ h
  · exact asString_ne_empty _ _ h

/-- A `string | null` value that is never `some ""` is falsy exactly when it
is null. -/
theorem jsTruthyStrOpt_eq_false_iff (x : Option String)
    (hx : ∀ s, x = some s → s ≠ "") : jsTruthyStrOpt x = false ↔ x = none := by
  cases x with
  | none => simp [jsTruthyStrOpt]
  | some s => simp [jsTruthyStrOpt, hx s rfl]

/-- A `number | null` value is falsy exactly when it is null or zero. -/
theorem jsTruthyIntOpt_eq_false_iff (x : Option Int) :
    jsTruthyIntOpt x = false ↔ x = none ∨ x = some 0 := by
  cases x with
  | none => simp [jsTruthyIntOpt]
  | some n => simp [jsTruthyIntOpt]

/-- A payload whose only identifier is the numeric external id 0. -/
def externalZeroBody : CallbackBody := { emptyBody with external_id := JsVal.int 0 }

/-- C9 counterexample: a payload carrying the numeric external id 0 (so an
identifier kind is present) is nevertheless rejected with the
missing-correlation-id condition, because 0 is falsy in JS. -/
theorem C9_counterexample :
    asInt externalZeroBody.external_id = some 0 ∧
    (processCallback 5 "n9" externalZeroBody storeCompleted).1 =
      CallbackOutcome.missingCorrelationId :=
  ⟨rfl, rfl⟩

/-- C9 (amended): the request is rejected with the missing-correlation-id
condition exactly when no internal call id is extracted, no run id is
extracted, and the external-id chain yields nothing or the falsy value 0 —
so a payload whose only identifier is external id 0 is rejected rather than
resolved. -/
theorem C9_missing_iff (now : Nat) (fid : String) (b : CallbackBody) (st : Store) :
    (processCallback now fid b st).1 = CallbackOutcome.missingCorrelationId ↔
      (extractRiderCallId b = none ∧ extractRunId b = none ∧
        (extractExternalId b = none ∨ extractExternalId b = some 0)) := by
  have hrid := jsTruthyStrOpt_eq_false_iff (extractRiderCallId b)
    (extractRiderCallId_ne_empty b)
  have hrun := jsTruthyStrOpt_eq_false_iff (extractRunId b)
    (extractRunId_ne_empty b)
  have hext := jsTruthyIntOpt_eq_false_iff (extractExternalId b)
  unfold processCallback extractCallback
  dsimp only
  split
  · rename_i hcond
    simp only [Bool.and_eq_true, Bool.not_eq_true'] at hcond
    exact ⟨fun _ => ⟨hrid.mp hcond.1.1, hrun.mp hcond.1.2, hext.mp hcond.2⟩,
      fun _ => rfl⟩
  · rename_i hcond
    constructor
    · intro habs
      split at habs <;> simp at habs
    · intro hrhs
      exact absurd (by
        simp only [Bool.and_eq_true, Bool.not_eq_true']
        exact ⟨⟨hrid.mpr hrhs.1, hrun.mpr hrhs.2.1⟩, hext.mpr hrhs.2.2⟩) hcond

/-- C10 counterexample: the claim says both normalizers map "t" to true and
non-listed numbers to absent; the callback-path `asBoolean` maps "t" to
absent and the number 2 to true (while the import-path `parseBooleanLoose`
does map "t" to true). -/
theorem C10_counterexample :
    asBoolean (JsVal.str "t") = none ∧
    asBoolean (JsVal.int 2) = some true ∧
    parseBooleanLoose (some "t") = some true := by
  refine ⟨by decide, by decide, by decide⟩

/-- C10 (amended): the import path's `parseBooleanLoose` implements the
spec's loose-boolean mapping exactly (including the t/f short forms, with
everything else absent); the callback path's `asBoolean` deviates from it —
strings "t"/"f" map to absent, any number maps to its JS truthiness `n ≠ 0`
instead of absent, booleans pass through, and all other strings follow the
spec mapping. -/
theorem C10_loose_boolean_normalization (s : String) (n : Int) (bv : Bool) :
    parseBooleanLoose (some s) = specLooseBool s ∧
    asBoolean (JsVal.boolVal bv) = some bv ∧
    asBoolean (JsVal.int n) = some (decide (n ≠ 0)) ∧
    (jsToLower (jsTrim s) = "t" → asBoolean (JsVal.str s) = none) ∧
    (jsToLower (jsTrim s) = "f" → asBoolean (JsVal.str s) = none) ∧
    (jsToLower (jsTrim s) ≠ "t" → jsToLower (jsTrim s) ≠ "f" →
      asBoolean (JsVal.str s) = specLooseBool s) := by
  refine ⟨?_, rfl, ?_, fun ht => ?_, fun hf => ?_, fun ht hf => ?_⟩
  · unfold parseBooleanLoose specLooseBool
    simp only [Option.getD_some]
    split_ifs <;> (try simp_all) <;> (casesm* _ ∨ _) <;> simp_all
  · rcases eq_or_ne n 0 with rfl | hn
    · simp [asBoolean]
    · simp [asBoolean, hn]
  · simp only [asBoolean]
    rw [ht]
    rfl
  · simp only [asBoolean]
    rw [hf]
    rfl
  · simp only [asBoolean, specLooseBool]
    split_ifs <;> simp_all

/-- C10 witness: the comparison theorem applied at the concrete string "t"
(where the two normalizers disagree) with its hypotheses discharged. -/
theorem C10_witness :
    asBoolean (JsVal.str "t") = none ∧
    parseBooleanLoose (some "t") = specLooseBool "t" :=
  ⟨(C10_loose_boolean_normalization "t" 0 false).2.2.2.1 (by decide),
   (C10_loose_boolean_normalization "t" 0 false).1⟩
